import Mathlib

/-!
# Payment service: endpoint / decorator layer

A shallow embedding of `endpoints.go` and `logging.go` of the payment service.

* Go interface values (`interface{}`, `error`, `opentracing.SpanContext`) are
  closed sums of the dynamic types the code distinguishes plus a catch-all.
* Effects (spans started / tagged / finished, log lines, calls of the business
  service) are appended to an event trace carried by an explicit world state.
* A Go call either returns or panics; deferred functions run in both cases and
  may rewrite the named results of the surrounding function.
-/

namespace Payment

/-! ## Values -/

/-- A non-nil Go `error` value. The nil error is `none : Option GoError`. -/
structure GoError where
  msg : String
deriving DecidableEq, Repr

/-- Go `float32`, kept as its bit pattern; amounts are only passed through. -/
structure Float32 where
  bits : Nat
deriving DecidableEq, Repr

/-- Modelled from the spec: the type `Authorisation` (the spec's Decision), declared in
the package outside endpoints.go and logging.go; it has a boolean "authorised" and an
optional reason. -/
structure Authorisation where
  Authorised : Bool
  Reason : Option String
deriving DecidableEq, Repr

/-- Modelled from the spec: the type `Health` (the spec's HealthStatus), declared in the
package outside endpoints.go and logging.go; it has a name and a status. -/
structure Health where
  name : String
  status : String
deriving DecidableEq, Repr

/-- AuthoriseRequest represents a request for payment authorisation. -/
structure AuthoriseRequest where
  Amount : Float32
deriving DecidableEq, Repr

/-- AuthoriseResponse returns a response of type Authorisation and an error, Err. -/
structure AuthoriseResponse where
  Authorisation : Payment.Authorisation
  Err : Option GoError
deriving DecidableEq, Repr

/-- The Go struct `healthResponse`. -/
structure healthResponse where
  Health : List Payment.Health
deriving DecidableEq, Repr

/-- An untyped Go value (`interface{}`) as seen by the endpoints: its dynamic type is
one of the four request/response structs, or it is nil, or it is of some other type. -/
inductive Dyn where
  | nil
  | ofAuthoriseRequest (r : AuthoriseRequest)
  | ofAuthoriseResponse (r : AuthoriseResponse)
  | ofHealthRequest
  | ofHealthResponse (r : healthResponse)
  | other (typeName : String)
deriving DecidableEq, Repr

/-- The comma-ok assertion `v.(AuthoriseResponse)`. -/
def Dyn.asAuthoriseResponse : Dyn → Option AuthoriseResponse
  | .ofAuthoriseResponse r => some r
  | _ => none

/-- The comma-ok assertion `v.(AuthoriseRequest)`. -/
def Dyn.asAuthoriseRequest : Dyn → Option AuthoriseRequest
  | .ofAuthoriseRequest r => some r
  | _ => none

/-- The rendering `fmt.Sprintf("%v", b)` of a Go bool. -/
def fmtBool (b : Bool) : String :=
  if b then "true" else "false"

/-! ## Tracing boundary -/

/-- A value of interface type `opentracing.SpanContext`, by the shapes the two
extraction functions distinguish. Every value carries its `fmt.Sprintf("%v", sc)`
rendering `str`.
* `zipkin`: dynamic type `zipkintracer.SpanContext`; `traceID` and `id` are
  `TraceID.String()` and `ID.String()`. That struct has fields named `TraceID` and
  `ID`, so it has no `TraceID()` method.
* `withAccessors`: some other type that has methods `TraceID() string` and
  `SpanID() string`.
* `other`: any other type. -/
inductive SpanContext where
  | zipkin (traceID : String) (id : String) (str : String)
  | withAccessors (traceID : String) (spanID : String) (str : String)
  | other (str : String)
deriving DecidableEq, Repr

/-- The rendering `fmt.Sprintf("%v", sc)`. -/
def SpanContext.render : SpanContext → String
  | .zipkin _ _ str => str
  | .withAccessors _ _ str => str
  | .other str => str

/-- The assertion `sc.(zipkintracer.SpanContext)`: the two rendered identifiers. -/
def SpanContext.asZipkin : SpanContext → Option (String × String)
  | .zipkin traceID id _ => some (traceID, id)
  | _ => none

/-- The assertion of `sc` to `interface { TraceID() string; SpanID() string }`:
the results of the two accessors. -/
def SpanContext.asAccessors : SpanContext → Option (String × String)
  | .withAccessors traceID spanID _ => some (traceID, spanID)
  | _ => none

/-- An `opentracing.Span`: its operation name and what `span.Context()` returns. -/
structure Span where
  operationName : String
  context : SpanContext
deriving DecidableEq, Repr

/-- A `context.Context`: the active span it carries, if any (`SpanFromContext`), and
everything else it carries (deadline, values), uninterpreted. -/
structure Context where
  span : Option Span
  rest : Nat
deriving DecidableEq, Repr

/-- Modelled from the spec: the library call `opentracing.SpanFromContext(ctx)`, the
lookup of the active span of a context; `none` is the nil span. -/
def SpanFromContext (ctx : Context) : Option Span :=
  ctx.span

/-- Modelled from the spec: the library call `opentracing.ContextWithSpan(ctx, span)`,
"an updated context carrying that span". -/
def ContextWithSpan (ctx : Context) (span : Span) : Context :=
  { ctx with span := some span }

/-! ## Trace extraction -/

/-- The function `extractTraceIDs` of endpoints.go. -/
def extractTraceIDs (ctx : Context) : String × String :=
  match SpanFromContext ctx with
  | some span =>
    let sc := span.context
    match sc.asZipkin with
    | some (tid, sid) => (tid, sid)
    | none =>
      let str := sc.render
      if str.length > 0 then (str, str) else ("", "")
  | none => ("", "")

/-- The function `extractTraceInfo` of logging.go. -/
def extractTraceInfo (ctx : Context) : String × String :=
  match SpanFromContext ctx with
  | some span =>
    let spanCtx := span.context
    match spanCtx.asAccessors with
    | some (tid, sid) => (tid, sid)
    | none =>
      let traceID := spanCtx.render
      (traceID, traceID)
  | none => ("", "")

/-! ## Effects -/

/-- A `log.Logger`, by its identity. -/
structure Logger where
  name : String
deriving DecidableEq, Repr

/-- A value passed to `logger.Log`. `elapsed` stands for a `time.Since(begin)`
duration; wall-clock readings are not modelled. -/
inductive LogValue where
  | str (s : String)
  | bool (b : Bool)
  | amount (a : Float32)
  | err (e : Option GoError)
  | elapsed
deriving DecidableEq, Repr

/-- One observable effect of the endpoint layer. -/
inductive Event where
  | spanStart (tracer : String) (span : Span)
  | spanSetTag (span : Span) (key : String) (value : String)
  | spanFinish (span : Span)
  | log (logger : Logger) (keyvals : List (String × LogValue))
  | authorise (amount : Float32)
  | health
deriving DecidableEq, Repr

/-- An `opentracing.Tracer`: its identity, the name of the service it reports for, and
the span context it gives a new span, from the operation name and the parent span
context (if any). -/
structure Tracer where
  name : String
  serviceName : String
  newContext : String → Option SpanContext → SpanContext

/-- The process state a call runs in: the state `svc` of the business service, the
registered `opentracing.GlobalTracer()`, and the trace of effects so far. -/
structure World (σ : Type) where
  svc : σ
  globalTracer : Tracer
  trace : List Event

/-- Append one effect to the trace. -/
def World.emit {σ : Type} (w : World σ) (e : Event) : World σ :=
  { w with trace := w.trace ++ [e] }

/-- The value of a Go panic: the run-time error of a failed single-value type assertion
`x.(T)`, by the asserted type `T`, or any other value. -/
inductive Panic where
  | typeAssertion (asserted : String)
  | value (v : String)
deriving DecidableEq, Repr

/-- How a Go call ends: it returns its results, or it panics. -/
inductive Outcome (α : Type) where
  | returned (a : α)
  | panicked (p : Panic)
deriving DecidableEq, Repr

/-- A Go call with effects: from the world before to the outcome and the world after. -/
abbrev Exec (σ : Type) (α : Type) : Type :=
  World σ → Outcome α × World σ

/-- A Go function body with one deferred function and named results. `body` runs to
its return statement, which sets the named results, or panics, which leaves them at
their `zero` values (no body here assigns them earlier). The deferred function `d`
then runs on the named results and yields their final values. After a panic of the
body the panic goes on once `d` has run. -/
def withDefer {σ ρ : Type} (zero : ρ) (body : Exec σ ρ) (d : ρ → Exec σ ρ) : Exec σ ρ :=
  fun w =>
    match body w with
    | (.returned r, w1) => d r w1
    | (.panicked p, w1) =>
      match d zero w1 with
      | (.returned _, w2) => (.panicked p, w2)
      | (.panicked q, w2) => (.panicked q, w2)

/-- Modelled from the spec: the library method
`tracer.StartSpan(operationName, ChildOf(parent.Context()))` of the tracing boundary,
with the parent taken from `ctx` when it carries a span. -/
def Tracer.StartSpan {σ : Type} (tracer : Tracer) (ctx : Context) (operationName : String)
    (w : World σ) : Span × World σ :=
  let span : Span :=
    { operationName := operationName
      context := tracer.newContext operationName ((SpanFromContext ctx).map Span.context) }
  (span, w.emit (.spanStart tracer.name span))

/-- Modelled from the spec: the library call
`opentracing.StartSpanFromContext(ctx, operationName)` of the tracing boundary, "starting
a span from a context and returning an updated context carrying that span": a span of
the global tracer, child of the span in `ctx` if there is one. -/
def StartSpanFromContext {σ : Type} (ctx : Context) (operationName : String) (w : World σ) :
    Span × Context × World σ :=
  let (span, w1) := w.globalTracer.StartSpan ctx operationName w
  (span, ContextWithSpan ctx span, w1)

/-- Modelled from the spec: the library method `span.SetTag(key, value)` ("spans support
tagging"). -/
def Span.SetTag {σ : Type} (span : Span) (key value : String) (w : World σ) : World σ :=
  w.emit (.spanSetTag span key value)

/-- Modelled from the spec: the library method `span.Finish()` ("an explicit finish
call"). -/
def Span.Finish {σ : Type} (span : Span) (w : World σ) : World σ :=
  w.emit (.spanFinish span)

/-- Modelled from the spec: the library method `logger.Log(keyvals...)`, one structured
key/value log line; its error result is dropped by every caller. -/
def Logger.Log {σ : Type} (logger : Logger) (keyvals : List (String × LogValue)) (w : World σ) :
    World σ :=
  w.emit (.log logger keyvals)

/-! ## Service boundary -/

/-- Modelled from the spec: the interface `Service`, declared in the package outside
endpoints.go and logging.go; it has `Authorise(amount) -> (Decision, error)` and
`Health() -> []HealthStatus`. Either call may also panic. -/
structure Service (σ : Type) where
  Authorise : Float32 → Exec σ (Authorisation × Option GoError)
  Health : Exec σ (List Health)

/-- A business implementation of the service boundary, external to this layer: each
operation is a transition of the implementation's own state and either returns or
panics. It does not touch the tracer or the loggers of this layer. -/
structure Business (σ : Type) where
  Authorise : Float32 → σ → Outcome (Authorisation × Option GoError) × σ
  Health : σ → Outcome (List Health) × σ

/-- A business implementation as a `Service`; every call of an operation is recorded
in the trace. -/
def Business.toService {σ : Type} (b : Business σ) : Service σ where
  Authorise := fun amount w =>
    let w1 := w.emit (.authorise amount)
    let (o, st) := b.Authorise amount w1.svc
    (o, { w1 with svc := st })
  Health := fun w =>
    let w1 := w.emit .health
    let (o, st) := b.Health w1.svc
    (o, { w1 with svc := st })

/-- Modelled from the spec: the type `Middleware` (a service decorator), declared in the
package outside endpoints.go and logging.go: given a Service boundary, it returns a
Service boundary. -/
abbrev Middleware (σ : Type) : Type :=
  Service σ → Service σ

/-- The go-kit type `endpoint.Endpoint`: `(ctx, request) -> (response, error)`. -/
abbrev Endpoint (σ : Type) : Type :=
  Context → Dyn → Exec σ (Dyn × Option GoError)

/-- The go-kit type `endpoint.Middleware`. -/
abbrev EndpointMiddleware (σ : Type) : Type :=
  Endpoint σ → Endpoint σ

/-- Endpoints collects the endpoints that comprise the Service. -/
structure Endpoints (σ : Type) where
  AuthoriseEndpoint : Endpoint σ
  HealthEndpoint : Endpoint σ

/-! ## logging.go -/

/-- The Go struct `loggingMiddleware`. -/
structure loggingMiddleware (σ : Type) where
  next : Service σ
  logger : Logger

/-- The method `loggingMiddleware.Authorise`: the deferred function logs the named
results `auth` and `err` and leaves them as they are. -/
def loggingMiddleware.Authorise {σ : Type} (mw : loggingMiddleware σ)
    (amount : Float32) : Exec σ (Authorisation × Option GoError) :=
  withDefer (({ Authorised := false, Reason := none } : Authorisation), none)
    (mw.next.Authorise amount)
    (fun named w =>
      let (auth, err) := named
      let w1 := mw.logger.Log
        [("method", .str "Authorise"),
         ("amount", .amount amount),
         ("result", .bool auth.Authorised),
         ("err", .err err),
         ("took", .elapsed)] w
      (.returned (auth, err), w1))

/-- The method `loggingMiddleware.Health`: health is intentionally not logged. -/
def loggingMiddleware.Health {σ : Type} (mw : loggingMiddleware σ) : Exec σ (List Health) :=
  mw.next.Health

/-- The struct `loggingMiddleware` as a value of interface type `Service`. -/
def loggingMiddleware.toService {σ : Type} (mw : loggingMiddleware σ) : Service σ :=
  { Authorise := mw.Authorise
    Health := mw.Health }

/-- LoggingMiddleware logs method calls, parameters, results, and elapsed time. -/
def LoggingMiddleware {σ : Type} (logger : Logger) : Middleware σ :=
  fun next =>
    loggingMiddleware.toService { next := next, logger := logger }

/-! ## endpoints.go -/

/-- The function `loggingEndpointMiddleware`. The deferred function reads the named
results `response` and `err`; on an `AuthoriseResponse` whose `Err` is non-nil it
assigns that error to the named result `err` before it logs. -/
def loggingEndpointMiddleware {σ : Type} (logger : Logger) : EndpointMiddleware σ :=
  fun next ctx request =>
    withDefer (Dyn.nil, none)
      (next ctx request)
      (fun named w =>
        let (response, err) := named
        let (traceID, spanID) := extractTraceIDs ctx
        match response.asAuthoriseResponse with
        | some resp =>
          let method := "Authorise"
          let err := if resp.Err ≠ none then resp.Err else err
          let result := fmtBool resp.Authorisation.Authorised
          let w1 := logger.Log
            [("traceid", .str traceID),
             ("spanid", .str spanID),
             ("method", .str method),
             ("result", .str result),
             ("err", .err err),
             ("took", .elapsed)] w
          (.returned (response, err), w1)
        | none => (.returned (response, err), w))

/-- The function `MakeAuthoriseEndpoint`. The span is started and tagged first; the
type assertion `request.(AuthoriseRequest)` has no comma-ok form, so it panics on any
other dynamic type; `span.Finish()` is deferred. -/
def MakeAuthoriseEndpoint {σ : Type} (s : Service σ) : Endpoint σ :=
  fun ctx request w =>
    let (span, _ctx, w1) := StartSpanFromContext ctx "authorize payment" w
    let w2 := span.SetTag "service" "payment" w1
    withDefer (Dyn.nil, none)
      (fun w3 =>
        match request.asAuthoriseRequest with
        | none => (.panicked (.typeAssertion "AuthoriseRequest"), w3)
        | some req =>
          match s.Authorise req.Amount w3 with
          | (.returned (authorisation, err), w4) =>
            (.returned (.ofAuthoriseResponse { Authorisation := authorisation, Err := err }, none), w4)
          | (.panicked p, w4) => (.panicked p, w4))
      (fun named w3 => (.returned named, span.Finish w3))
      w2

/-- The function `MakeHealthEndpoint`. Health checks are not traced. -/
def MakeHealthEndpoint {σ : Type} (s : Service σ) : Endpoint σ :=
  fun _ctx _request w =>
    match s.Health w with
    | (.returned health, w1) => (.returned (.ofHealthResponse { Health := health }, none), w1)
    | (.panicked p, w1) => (.panicked p, w1)

/-- Modelled from the spec: the tracing decorator `opentracing.TraceServer` of go-kit, a
library function whose source is not part of the package. By the spec it "opens a span
before invocation and closes it unconditionally after, tagging it with service
identity" (System Overview); the span is "named after the logical operation", its
"tags include at minimum the owning service's name", it is attached onto the call's
context, it is finished "before the call returns, on every exit path including error
paths" (Data Model), and the decorator "must not swallow or alter the wrapped call's
result" (Endpoint Decorators). -/
def TraceServer {σ : Type} (tracer : Tracer) (operationName : String) : EndpointMiddleware σ :=
  fun next ctx request w =>
    let (span, w1) := tracer.StartSpan ctx operationName w
    let w2 := span.SetTag "service" tracer.serviceName w1
    withDefer (Dyn.nil, none)
      (next (ContextWithSpan ctx span) request)
      (fun named w3 => (.returned named, span.Finish w3))
      w2

/-- The function `MakeEndpoints`. -/
def MakeEndpoints {σ : Type} (s : Service σ) (tracer : Tracer) (logger : Logger) : Endpoints σ :=
  let authoriseEndpoint := MakeAuthoriseEndpoint s
  let authoriseEndpoint := loggingEndpointMiddleware logger authoriseEndpoint
  let authoriseEndpoint := TraceServer tracer "POST /paymentAuth" authoriseEndpoint
  { AuthoriseEndpoint := authoriseEndpoint
    HealthEndpoint := MakeHealthEndpoint s }

/-! ## Observations on a trace -/

/-- The spans started in a trace, in order. -/
def spansStarted : List Event → List Span
  | [] => []
  | .spanStart _ span :: es => span :: spansStarted es
  | _ :: es => spansStarted es

/-- The spans finished in a trace, in order. -/
def spansFinished : List Event → List Span
  | [] => []
  | .spanFinish span :: es => span :: spansFinished es
  | _ :: es => spansFinished es

/-- The span starts and span finishes of a trace, in order, without the other events. -/
def spanLifecycle : List Event → List Event
  | [] => []
  | .spanStart tracer span :: es => .spanStart tracer span :: spanLifecycle es
  | .spanFinish span :: es => .spanFinish span :: spanLifecycle es
  | _ :: es => spanLifecycle es

/-- The log lines written in a trace, in order. -/
def logLines : List Event → List (Logger × List (String × LogValue))
  | [] => []
  | .log logger keyvals :: es => (logger, keyvals) :: logLines es
  | _ :: es => logLines es

/-- The amounts the business `Authorise` was called with in a trace, in order. -/
def authoriseCalls : List Event → List Float32
  | [] => []
  | .authorise amount :: es => amount :: authoriseCalls es
  | _ :: es => authoriseCalls es

/-- The value logged under `key` in a log line (the first one, if repeated). -/
def field (keyvals : List (String × LogValue)) (key : String) : Option LogValue :=
  (keyvals.find? (fun kv => kv.1 == key)).map Prod.snd


/-! ## Concrete inputs -/

/-- A tracer whose span contexts have neither the Zipkin shape nor accessors. -/
def plainTracer : Tracer :=
  { name := "plain", serviceName := "payment",
    newContext := fun operationName _ => .other operationName }

/-- A world with no business state and an empty trace. -/
def emptyWorld : World Unit :=
  { svc := (), globalTracer := plainTracer, trace := [] }

/-- A context that carries no span. -/
def background : Context :=
  { span := none, rest := 0 }

/-- A context that carries a span whose span context has no structured shape and
renders as the empty string (a type whose `String()` method returns ""). -/
def silentSpanContext : Context :=
  { span := some { operationName := "op", context := .other "" }, rest := 0 }

/-- A logger. -/
def stderrLogger : Logger :=
  { name := "stderr" }

/-- A business service that declines every amount with a business error. -/
def declining : Business Unit :=
  { Authorise := fun _ st =>
      (.returned ({ Authorised := false, Reason := none }, some { msg := "invalid payment amount" }), st)
    Health := fun st => (.returned [{ name := "payment", status := "OK" }], st) }

/-- A business service that authorises every amount. -/
def accepting : Business Unit :=
  { Authorise := fun _ st => (.returned ({ Authorised := true, Reason := none }, none), st)
    Health := fun st => (.returned [{ name := "payment", status := "OK" }], st) }

/-- An endpoint that returns an `AuthoriseResponse` without business error together
with a non-nil error of its own. -/
def failingNext : Endpoint Unit :=
  fun _ _ w =>
    (.returned
      (.ofAuthoriseResponse { Authorisation := { Authorised := true, Reason := none }, Err := none },
        some { msg := "boom" }), w)

/-- An endpoint that returns a health response. -/
def healthNext : Endpoint Unit :=
  fun _ _ w => (.returned (.ofHealthResponse { Health := [] }, none), w)

/-- The span `MakeAuthoriseEndpoint` starts when called with `ctx` in world `w`. -/
def adapterSpan {σ : Type} (ctx : Context) (w : World σ) : Span :=
  { operationName := "authorize payment"
    context := w.globalTracer.newContext "authorize payment" ((SpanFromContext ctx).map Span.context) }

/-- The span `TraceServer tracer "POST /paymentAuth"` starts when called with `ctx`. -/
def serverSpan (tracer : Tracer) (ctx : Context) : Span :=
  { operationName := "POST /paymentAuth"
    context := tracer.newContext "POST /paymentAuth" ((SpanFromContext ctx).map Span.context) }

/-- The effects of one call of the endpoint of `MakeAuthoriseEndpoint` with an
`AuthoriseRequest` for `amount`, on a business service. -/
def adapterEvents {σ : Type} (ctx : Context) (w : World σ) (amount : Float32) : List Event :=
  [.spanStart w.globalTracer.name (adapterSpan ctx w),
   .spanSetTag (adapterSpan ctx w) "service" "payment",
   .authorise amount,
   .spanFinish (adapterSpan ctx w)]

/-! ## Trace extraction: theorems -/

theorem string_eq_empty_of_length_zero (s : String) (h : s.length = 0) : s = "" := by
  cases s with
  | mk data =>
    have hd : data = [] := List.length_eq_zero.mp h
    subst hd
    rfl

/-- C9: on a context that carries no active span, `extractTraceIDs` and
`extractTraceInfo` both return the empty string for the trace identifier and for the
span identifier (both are total functions, so neither fails). -/
theorem extract_without_span (ctx : Context) (h : SpanFromContext ctx = none) :
    extractTraceIDs ctx = ("", "") ∧ extractTraceInfo ctx = ("", "") := by
  simp [extractTraceIDs, extractTraceInfo, h]

theorem extract_without_span_witness :
    SpanFromContext background = none ∧
      extractTraceIDs background = ("", "") ∧ extractTraceInfo background = ("", "") :=
  ⟨rfl, extract_without_span background rfl⟩

/-- C10, as stated, fails: the context `silentSpanContext` carries an active span whose
span context has neither the Zipkin shape nor accessors, and both extraction functions
return the empty string for the trace identifier. -/
theorem extract_fallback_can_be_empty :
    SpanFromContext silentSpanContext = some { operationName := "op", context := .other "" } ∧
      (SpanContext.other "").asZipkin = none ∧
      (SpanContext.other "").asAccessors = none ∧
      ¬ ((extractTraceIDs silentSpanContext).1 ≠ "") ∧
      ¬ ((extractTraceInfo silentSpanContext).1 ≠ "") := by
  refine ⟨rfl, rfl, rfl, ?_, ?_⟩
  · exact fun hne => hne rfl
  · exact fun hne => hne rfl

/-- C10, amended: on a context that carries an active span, when the span context is
not a Zipkin span context `extractTraceIDs` returns its string rendering for both
identifiers, and when it has no accessors `extractTraceInfo` does the same; the
identifiers are non-empty exactly when that rendering is non-empty. -/
theorem extract_fallback (ctx : Context) (span : Span) (h : SpanFromContext ctx = some span) :
    (span.context.asZipkin = none →
      extractTraceIDs ctx = (span.context.render, span.context.render)) ∧
    (span.context.asAccessors = none →
      extractTraceInfo ctx = (span.context.render, span.context.render)) ∧
    (span.context.asZipkin = none →
      ((extractTraceIDs ctx).1 ≠ "" ↔ span.context.render ≠ "")) ∧
    (span.context.asAccessors = none →
      ((extractTraceInfo ctx).1 ≠ "" ↔ span.context.render ≠ "")) := by
  have ids : span.context.asZipkin = none →
      extractTraceIDs ctx = (span.context.render, span.context.render) := by
    intro hz
    by_cases hl : span.context.render.length > 0
    · simp [extractTraceIDs, h, hz, hl]
    · have he : span.context.render = "" :=
        string_eq_empty_of_length_zero _ (Nat.eq_zero_of_not_pos hl)
      simp [extractTraceIDs, h, hz, he]
  have info : span.context.asAccessors = none →
      extractTraceInfo ctx = (span.context.render, span.context.render) := by
    intro ha
    simp [extractTraceInfo, h, ha]
  refine ⟨ids, info, ?_, ?_⟩
  · intro hz
    rw [ids hz]
  · intro ha
    rw [info ha]

theorem extract_fallback_witness :
    SpanFromContext { span := some { operationName := "op", context := .other "7f3a" }, rest := 0 } =
        some { operationName := "op", context := .other "7f3a" } ∧
      (SpanContext.other "7f3a").asZipkin = none ∧
      (SpanContext.other "7f3a").asAccessors = none ∧
      extractTraceIDs { span := some { operationName := "op", context := .other "7f3a" }, rest := 0 }
        = ("7f3a", "7f3a") ∧
      extractTraceInfo { span := some { operationName := "op", context := .other "7f3a" }, rest := 0 }
        = ("7f3a", "7f3a") :=
  ⟨rfl, rfl, rfl,
    (extract_fallback
      { span := some { operationName := "op", context := .other "7f3a" }, rest := 0 }
      { operationName := "op", context := .other "7f3a" } rfl).1 rfl,
    (extract_fallback
      { span := some { operationName := "op", context := .other "7f3a" }, rest := 0 }
      { operationName := "op", context := .other "7f3a" } rfl).2.1 rfl⟩

/-! ## Endpoint adapter: theorems -/

theorem adapter_run_returned {σ : Type} (b : Business σ) (ctx : Context)
    (r : AuthoriseRequest) (w : World σ) (a : Authorisation) (e : Option GoError) (st : σ)
    (h : b.Authorise r.Amount w.svc = (.returned (a, e), st)) :
    MakeAuthoriseEndpoint b.toService ctx (.ofAuthoriseRequest r) w =
      (.returned (.ofAuthoriseResponse { Authorisation := a, Err := e }, none),
        { svc := st, globalTracer := w.globalTracer,
          trace := w.trace ++ adapterEvents ctx w r.Amount }) := by
  simp [MakeAuthoriseEndpoint, StartSpanFromContext, Tracer.StartSpan, Span.SetTag, Span.Finish,
    withDefer, Business.toService, World.emit, Dyn.asAuthoriseRequest, adapterSpan,
    adapterEvents, h]

theorem adapter_run_panicked {σ : Type} (b : Business σ) (ctx : Context)
    (r : AuthoriseRequest) (w : World σ) (p : Panic) (st : σ)
    (h : b.Authorise r.Amount w.svc = (.panicked p, st)) :
    MakeAuthoriseEndpoint b.toService ctx (.ofAuthoriseRequest r) w =
      (.panicked p,
        { svc := st, globalTracer := w.globalTracer,
          trace := w.trace ++ adapterEvents ctx w r.Amount }) := by
  simp [MakeAuthoriseEndpoint, StartSpanFromContext, Tracer.StartSpan, Span.SetTag, Span.Finish,
    withDefer, Business.toService, World.emit, Dyn.asAuthoriseRequest, adapterSpan,
    adapterEvents, h]

/-- C4: called with an `AuthoriseRequest` `r`, the endpoint of `MakeAuthoriseEndpoint`
calls the business `Authorise` exactly once, with `r.Amount`, and when that call
returns `(a, e)` the endpoint returns `(AuthoriseResponse{a, e}, nil)`: its own error
is nil whether `e` is nil or not. -/
theorem authorise_endpoint_returns {σ : Type} (b : Business σ) (ctx : Context)
    (r : AuthoriseRequest) (w : World σ) (a : Authorisation) (e : Option GoError) (st : σ)
    (h : b.Authorise r.Amount w.svc = (.returned (a, e), st)) :
    ∃ evs : List Event,
      MakeAuthoriseEndpoint b.toService ctx (.ofAuthoriseRequest r) w =
        (.returned (.ofAuthoriseResponse { Authorisation := a, Err := e }, none),
          { svc := st, globalTracer := w.globalTracer, trace := w.trace ++ evs }) ∧
      authoriseCalls evs = [r.Amount] := by
  exact ⟨adapterEvents ctx w r.Amount, adapter_run_returned b ctx r w a e st h, rfl⟩

theorem authorise_endpoint_returns_witness :
    accepting.Authorise ⟨50⟩ emptyWorld.svc =
        (.returned ({ Authorised := true, Reason := none }, none), ()) ∧
    ∃ evs : List Event,
      MakeAuthoriseEndpoint accepting.toService background (.ofAuthoriseRequest ⟨⟨50⟩⟩) emptyWorld =
        (.returned (.ofAuthoriseResponse
            { Authorisation := { Authorised := true, Reason := none }, Err := none }, none),
          { svc := (), globalTracer := emptyWorld.globalTracer, trace := emptyWorld.trace ++ evs }) ∧
      authoriseCalls evs = [(⟨50⟩ : Float32)] :=
  ⟨rfl, authorise_endpoint_returns accepting background ⟨⟨50⟩⟩ emptyWorld
    { Authorised := true, Reason := none } none () rfl⟩

/-- C2, as stated, fails: called with the nil request, the endpoint of
`MakeAuthoriseEndpoint` does not return an error, it panics, and it has started a span. -/
theorem authorise_endpoint_mistyped_panics_example :
    Dyn.nil.asAuthoriseRequest = none ∧
      (MakeAuthoriseEndpoint accepting.toService background .nil emptyWorld).1 =
        .panicked (.typeAssertion "AuthoriseRequest") ∧
      spansStarted (MakeAuthoriseEndpoint accepting.toService background .nil emptyWorld).2.trace =
        [{ operationName := "authorize payment", context := .other "authorize payment" }] := by
  refine ⟨rfl, rfl, rfl⟩

/-- C2, amended: called with a request whose dynamic type is not `AuthoriseRequest`,
the endpoint of `MakeAuthoriseEndpoint` panics with the run-time error of the failed
type assertion instead of returning. Its effects are exactly three, in this order: the
span "authorize payment" is started on the global tracer (as a child of the span of
the context, if there is one), that span is tagged service = payment, and that span
is finished. So the service is not called (the effects are the same for every service
and the business state is untouched), one span is started, the same span is finished,
and no log line is written. -/
theorem authorise_endpoint_mistyped {σ : Type} (s : Service σ) (ctx : Context) (request : Dyn)
    (w : World σ) (h : request.asAuthoriseRequest = none) :
    ∃ evs : List Event,
      MakeAuthoriseEndpoint s ctx request w =
        (.panicked (.typeAssertion "AuthoriseRequest"),
          { w with trace := w.trace ++ evs }) ∧
      evs =
        [.spanStart w.globalTracer.name
            { operationName := "authorize payment"
              context := w.globalTracer.newContext "authorize payment"
                ((SpanFromContext ctx).map Span.context) },
         .spanSetTag
            { operationName := "authorize payment"
              context := w.globalTracer.newContext "authorize payment"
                ((SpanFromContext ctx).map Span.context) } "service" "payment",
         .spanFinish
            { operationName := "authorize payment"
              context := w.globalTracer.newContext "authorize payment"
                ((SpanFromContext ctx).map Span.context) }] ∧
      authoriseCalls evs = [] ∧
      spansStarted evs = [adapterSpan ctx w] ∧
      spansFinished evs = [adapterSpan ctx w] ∧
      logLines evs = [] := by
  refine ⟨[.spanStart w.globalTracer.name (adapterSpan ctx w),
    .spanSetTag (adapterSpan ctx w) "service" "payment",
    .spanFinish (adapterSpan ctx w)], ?_, rfl, rfl, rfl, rfl, rfl⟩
  simp [MakeAuthoriseEndpoint, StartSpanFromContext, Tracer.StartSpan, Span.SetTag, Span.Finish,
    withDefer, World.emit, adapterSpan, h]

theorem authorise_endpoint_mistyped_witness :
    Dyn.ofHealthRequest.asAuthoriseRequest = none ∧
    ∃ evs : List Event,
      MakeAuthoriseEndpoint accepting.toService background .ofHealthRequest emptyWorld =
        (.panicked (.typeAssertion "AuthoriseRequest"),
          { emptyWorld with trace := emptyWorld.trace ++ evs }) ∧
      evs =
        [.spanStart "plain"
            { operationName := "authorize payment", context := .other "authorize payment" },
         .spanSetTag
            { operationName := "authorize payment", context := .other "authorize payment" }
            "service" "payment",
         .spanFinish
            { operationName := "authorize payment", context := .other "authorize payment" }] ∧
      authoriseCalls evs = [] ∧
      spansStarted evs = [adapterSpan background emptyWorld] ∧
      spansFinished evs = [adapterSpan background emptyWorld] ∧
      logLines evs = [] :=
  ⟨rfl, authorise_endpoint_mistyped accepting.toService background .ofHealthRequest emptyWorld rfl⟩

/-- C5: for every request value, the `HealthEndpoint` of `MakeEndpoints` returns
`(healthResponse{Health: h}, nil)` where `h` is what the business `Health()` returned;
the call starts no span and writes no log line. -/
theorem health_endpoint_plain {σ : Type} (b : Business σ) (tracer : Tracer) (logger : Logger)
    (ctx : Context) (request : Dyn) (w : World σ) (hs : List Health) (st : σ)
    (h : b.Health w.svc = (.returned hs, st)) :
    ∃ evs : List Event,
      (MakeEndpoints b.toService tracer logger).HealthEndpoint ctx request w =
        (.returned (.ofHealthResponse { Health := hs }, none),
          { svc := st, globalTracer := w.globalTracer, trace := w.trace ++ evs }) ∧
      spansStarted evs = [] ∧
      logLines evs = [] := by
  refine ⟨[.health], ?_, rfl, rfl⟩
  simp [MakeEndpoints, MakeHealthEndpoint, Business.toService, World.emit, h]

theorem health_endpoint_plain_witness :
    accepting.Health emptyWorld.svc = (.returned [{ name := "payment", status := "OK" }], ()) ∧
    ∃ evs : List Event,
      (MakeEndpoints accepting.toService plainTracer stderrLogger).HealthEndpoint background
          (.other "string") emptyWorld =
        (.returned (.ofHealthResponse { Health := [{ name := "payment", status := "OK" }] }, none),
          { svc := (), globalTracer := emptyWorld.globalTracer, trace := emptyWorld.trace ++ evs }) ∧
      spansStarted evs = [] ∧
      logLines evs = [] :=
  ⟨rfl, health_endpoint_plain accepting plainTracer stderrLogger background (.other "string")
    emptyWorld [{ name := "payment", status := "OK" }] () rfl⟩

/-! ## Endpoint logging decorator: theorems -/

/-- C1, on the code: when the business `Authorise` returns a non-nil error `e`, the
logged Authorise endpoint returns an `AuthoriseResponse` whose `Err` is `e`, but its own
error is `e` as well, not nil: the deferred function of `loggingEndpointMiddleware`
assigns `resp.Err` to the named result `err`. -/
theorem logged_endpoint_returns_business_error {σ : Type} (b : Business σ) (logger : Logger)
    (ctx : Context) (r : AuthoriseRequest) (w : World σ) (a : Authorisation) (e : GoError)
    (st : σ) (h : b.Authorise r.Amount w.svc = (.returned (a, some e), st)) :
    (loggingEndpointMiddleware logger (MakeAuthoriseEndpoint b.toService) ctx
        (.ofAuthoriseRequest r) w).1 =
      .returned (.ofAuthoriseResponse { Authorisation := a, Err := some e }, some e) := by
  have hrun := adapter_run_returned b ctx r w a (some e) st h
  simp [loggingEndpointMiddleware, withDefer, hrun, Dyn.asAuthoriseResponse]

theorem logged_endpoint_returns_business_error_witness :
    declining.Authorise ⟨0⟩ emptyWorld.svc =
        (.returned
          ({ Authorised := false, Reason := none }, some { msg := "invalid payment amount" }), ()) ∧
    (loggingEndpointMiddleware stderrLogger (MakeAuthoriseEndpoint declining.toService) background
        (.ofAuthoriseRequest ⟨⟨0⟩⟩) emptyWorld).1 =
      .returned
        (.ofAuthoriseResponse
          { Authorisation := { Authorised := false, Reason := none },
            Err := some { msg := "invalid payment amount" } },
          some { msg := "invalid payment amount" }) :=
  ⟨rfl, logged_endpoint_returns_business_error declining stderrLogger background ⟨⟨0⟩⟩ emptyWorld
    { Authorised := false, Reason := none } { msg := "invalid payment amount" } () rfl⟩

/-- C6: when the wrapped endpoint returns a response whose dynamic type is not
`AuthoriseResponse`, the endpoint of `loggingEndpointMiddleware` is that one call of
the wrapped endpoint, with the same context and request: it returns the same
(response, error) pair and leaves the world the call left, so it writes no log line. -/
theorem logging_endpoint_pass_through {σ : Type} (logger : Logger) (next : Endpoint σ)
    (ctx : Context) (request : Dyn) (w w1 : World σ) (response : Dyn) (err : Option GoError)
    (hnext : next ctx request w = (.returned (response, err), w1))
    (hshape : response.asAuthoriseResponse = none) :
    loggingEndpointMiddleware logger next ctx request w = next ctx request w ∧
      loggingEndpointMiddleware logger next ctx request w = (.returned (response, err), w1) ∧
      logLines (loggingEndpointMiddleware logger next ctx request w).2.trace = logLines w1.trace := by
  have hrun : loggingEndpointMiddleware logger next ctx request w = (.returned (response, err), w1) := by
    simp [loggingEndpointMiddleware, withDefer, hnext, hshape]
  refine ⟨?_, hrun, ?_⟩
  · rw [hrun, hnext]
  · rw [hrun]

theorem logging_endpoint_pass_through_witness :
    healthNext background .ofHealthRequest emptyWorld =
        (.returned (.ofHealthResponse { Health := [] }, none), emptyWorld) ∧
    (Dyn.ofHealthResponse { Health := [] }).asAuthoriseResponse = none ∧
    loggingEndpointMiddleware stderrLogger healthNext background .ofHealthRequest emptyWorld =
        healthNext background .ofHealthRequest emptyWorld ∧
      loggingEndpointMiddleware stderrLogger healthNext background .ofHealthRequest emptyWorld =
        (.returned (.ofHealthResponse { Health := [] }, none), emptyWorld) ∧
      logLines (loggingEndpointMiddleware stderrLogger healthNext background .ofHealthRequest
        emptyWorld).2.trace = logLines emptyWorld.trace :=
  ⟨rfl, rfl, logging_endpoint_pass_through stderrLogger healthNext background .ofHealthRequest
    emptyWorld emptyWorld (.ofHealthResponse { Health := [] }) none rfl rfl⟩

/-- C7, as stated, fails: `failingNext` returns an `AuthoriseResponse` whose `Err` is nil
together with the error "boom"; the one log line written has `err` = "boom", which is
not the embedded business error. -/
theorem logging_endpoint_err_field_example :
    failingNext background .nil emptyWorld =
        (.returned
          (.ofAuthoriseResponse
            { Authorisation := { Authorised := true, Reason := none }, Err := none },
            some { msg := "boom" }), emptyWorld) ∧
      (logLines (loggingEndpointMiddleware stderrLogger failingNext background .nil
          emptyWorld).2.trace).map (fun line => (line.1, field line.2 "err")) =
        [(stderrLogger, some (.err (some { msg := "boom" })))] ∧
      LogValue.err (some { msg := "boom" }) ≠ LogValue.err none := by
  refine ⟨rfl, ?_, ?_⟩
  · decide
  · decide

/-- C7, amended: let the wrapped endpoint end with outcome `o` in world `w1`. If `o` is
a return of an `AuthoriseResponse` `resp` with error `err`, the endpoint of
`loggingEndpointMiddleware` writes exactly one log line, with traceid/spanid = the pair
`extractTraceIDs` gives for the call's context, method = "Authorise", result = the
rendering of `resp.Authorisation.Authorised`, err = `resp.Err` when that is non-nil and
otherwise the error `err` the wrapped endpoint returned, and the elapsed time. In every
other case (another response type, or a panic) it writes nothing. -/
theorem logging_endpoint_log_line {σ : Type} (logger : Logger) (next : Endpoint σ)
    (ctx : Context) (request : Dyn) (w w1 : World σ) (o : Outcome (Dyn × Option GoError))
    (hnext : next ctx request w = (o, w1)) :
    (∀ (resp : AuthoriseResponse) (err : Option GoError),
      o = .returned (.ofAuthoriseResponse resp, err) →
      (loggingEndpointMiddleware logger next ctx request w).2 =
        w1.emit (.log logger
          [("traceid", .str (extractTraceIDs ctx).1),
           ("spanid", .str (extractTraceIDs ctx).2),
           ("method", .str "Authorise"),
           ("result", .str (fmtBool resp.Authorisation.Authorised)),
           ("err", .err (if resp.Err ≠ none then resp.Err else err)),
           ("took", .elapsed)])) ∧
    ((∀ (resp : AuthoriseResponse) (err : Option GoError),
        o ≠ .returned (.ofAuthoriseResponse resp, err)) →
      (loggingEndpointMiddleware logger next ctx request w).2 = w1) := by
  constructor
  · intro resp err ho
    subst ho
    simp [loggingEndpointMiddleware, withDefer, hnext, Dyn.asAuthoriseResponse, Logger.Log]
  · intro hno
    cases o with
    | panicked p =>
      simp [loggingEndpointMiddleware, withDefer, hnext, Dyn.asAuthoriseResponse]
    | returned res =>
      obtain ⟨response, err⟩ := res
      cases response with
      | ofAuthoriseResponse resp => exact absurd rfl (hno resp err)
      | _ => simp [loggingEndpointMiddleware, withDefer, hnext, Dyn.asAuthoriseResponse]

theorem logging_endpoint_log_line_witness :
    failingNext background .nil emptyWorld =
        (.returned
          (.ofAuthoriseResponse
            { Authorisation := { Authorised := true, Reason := none }, Err := none },
            some { msg := "boom" }), emptyWorld) ∧
    (loggingEndpointMiddleware stderrLogger failingNext background .nil emptyWorld).2 =
      emptyWorld.emit (.log stderrLogger
        [("traceid", .str (extractTraceIDs background).1),
         ("spanid", .str (extractTraceIDs background).2),
         ("method", .str "Authorise"),
         ("result", .str (fmtBool true)),
         ("err", .err (if (none : Option GoError) ≠ none then none else some { msg := "boom" })),
         ("took", .elapsed)]) ∧
    healthNext background .ofHealthRequest emptyWorld =
        (.returned (.ofHealthResponse { Health := [] }, none), emptyWorld) ∧
    (loggingEndpointMiddleware stderrLogger healthNext background .ofHealthRequest emptyWorld).2 =
      emptyWorld :=
  ⟨rfl,
    (logging_endpoint_log_line stderrLogger failingNext background .nil emptyWorld emptyWorld _
      rfl).1 { Authorisation := { Authorised := true, Reason := none }, Err := none }
      (some { msg := "boom" }) rfl,
    rfl,
    (logging_endpoint_log_line stderrLogger healthNext background .ofHealthRequest emptyWorld
      emptyWorld (.returned (.ofHealthResponse { Health := [] }, none)) rfl).2
      (fun _ _ hcontra => by cases hcontra)⟩

/-! ## Service logging decorator: theorems -/

/-- C8: `LoggingMiddleware(logger)(next)` has the results of `next`. When
`next.Authorise(amount)` returns `(a, e)`, the decorated `Authorise(amount)` is that one
call followed by exactly one log record with method = "Authorise", the input amount,
`a.Authorised`, `e` and the elapsed time, and it returns `(a, e)`. The decorated
`Health()` is `next.Health()`: it writes no log record. -/
theorem logging_service_same_results {σ : Type} (logger : Logger) (next : Service σ)
    (amount : Float32) (w w1 : World σ) (a : Authorisation) (e : Option GoError)
    (h : next.Authorise amount w = (.returned (a, e), w1)) :
    (LoggingMiddleware logger next).Authorise amount w =
        (.returned (a, e),
          w1.emit (.log logger
            [("method", .str "Authorise"),
             ("amount", .amount amount),
             ("result", .bool a.Authorised),
             ("err", .err e),
             ("took", .elapsed)])) ∧
      (LoggingMiddleware logger next).Health = next.Health := by
  refine ⟨?_, rfl⟩
  simp [LoggingMiddleware, loggingMiddleware.toService, loggingMiddleware.Authorise, withDefer, h,
    Logger.Log]

theorem logging_service_same_results_witness :
    declining.toService.Authorise ⟨150⟩ emptyWorld =
        (.returned
          ({ Authorised := false, Reason := none }, some { msg := "invalid payment amount" }),
          emptyWorld.emit (.authorise ⟨150⟩)) ∧
    (LoggingMiddleware stderrLogger declining.toService).Authorise ⟨150⟩ emptyWorld =
        (.returned
          ({ Authorised := false, Reason := none }, some { msg := "invalid payment amount" }),
          (emptyWorld.emit (.authorise ⟨150⟩)).emit (.log stderrLogger
            [("method", .str "Authorise"),
             ("amount", .amount ⟨150⟩),
             ("result", .bool false),
             ("err", .err (some { msg := "invalid payment amount" })),
             ("took", .elapsed)])) ∧
      (LoggingMiddleware stderrLogger declining.toService).Health = declining.toService.Health :=
  ⟨rfl, logging_service_same_results stderrLogger declining.toService ⟨150⟩ emptyWorld
    (emptyWorld.emit (.authorise ⟨150⟩)) { Authorised := false, Reason := none }
    (some { msg := "invalid payment amount" }) rfl⟩

/-! ## Composition: theorems -/

theorem traced_endpoint_unfold {σ : Type} (s : Service σ) (tracer : Tracer) (logger : Logger)
    (ctx : Context) (request : Dyn) (w : World σ) :
    (MakeEndpoints s tracer logger).AuthoriseEndpoint ctx request w =
      withDefer (Dyn.nil, none)
        (loggingEndpointMiddleware logger (MakeAuthoriseEndpoint s)
          (ContextWithSpan ctx (serverSpan tracer ctx)) request)
        (fun named w3 => (.returned named, (serverSpan tracer ctx).Finish w3))
        ((w.emit (.spanStart tracer.name (serverSpan tracer ctx))).emit
          (.spanSetTag (serverSpan tracer ctx) "service" tracer.serviceName)) :=
  rfl

theorem traced_endpoint_run {σ : Type} (b : Business σ) (tracer : Tracer) (logger : Logger)
    (ctx : Context) (r : AuthoriseRequest) (w : World σ) :
    ∃ tail : List Event,
      ((MakeEndpoints b.toService tracer logger).AuthoriseEndpoint ctx
          (.ofAuthoriseRequest r) w).2.trace =
        w.trace ++
          (.spanStart tracer.name (serverSpan tracer ctx) ::
            .spanSetTag (serverSpan tracer ctx) "service" tracer.serviceName ::
            (adapterEvents (ContextWithSpan ctx (serverSpan tracer ctx)) w r.Amount ++ tail ++
              [.spanFinish (serverSpan tracer ctx)])) ∧
      (tail = [] ∨ ∃ line, tail = [.log logger line]) := by
  rcases hb : b.Authorise r.Amount w.svc with ⟨o, st⟩
  cases o with
  | returned res =>
    obtain ⟨a, e⟩ := res
    have hrun := adapter_run_returned b (ContextWithSpan ctx (serverSpan tracer ctx)) r
      ((w.emit (.spanStart tracer.name (serverSpan tracer ctx))).emit
        (.spanSetTag (serverSpan tracer ctx) "service" tracer.serviceName)) a e st hb
    refine ⟨[.log logger
      [("traceid", .str (extractTraceIDs (ContextWithSpan ctx (serverSpan tracer ctx))).1),
       ("spanid", .str (extractTraceIDs (ContextWithSpan ctx (serverSpan tracer ctx))).2),
       ("method", .str "Authorise"),
       ("result", .str (fmtBool a.Authorised)),
       ("err", .err (if e ≠ none then e else none)),
       ("took", .elapsed)]], ?_, Or.inr ⟨_, rfl⟩⟩
    rw [traced_endpoint_unfold]
    simp only [loggingEndpointMiddleware, withDefer, hrun]
    simp [Dyn.asAuthoriseResponse, Logger.Log, Span.Finish, World.emit, adapterEvents, adapterSpan]
  | panicked p =>
    have hrun := adapter_run_panicked b (ContextWithSpan ctx (serverSpan tracer ctx)) r
      ((w.emit (.spanStart tracer.name (serverSpan tracer ctx))).emit
        (.spanSetTag (serverSpan tracer ctx) "service" tracer.serviceName)) p st hb
    refine ⟨[], ?_, Or.inl rfl⟩
    rw [traced_endpoint_unfold]
    simp only [loggingEndpointMiddleware, withDefer, hrun]
    simp [Dyn.asAuthoriseResponse, Span.Finish, World.emit, adapterEvents, adapterSpan]

/-- C3, as stated, fails: one invocation of the `AuthoriseEndpoint` of `MakeEndpoints`
starts two spans and finishes two spans, the one of the tracing decorator and the one
of the adapter; neither number is one. -/
theorem traced_endpoint_two_spans_example :
    spansStarted
        ((MakeEndpoints accepting.toService plainTracer stderrLogger).AuthoriseEndpoint background
          (.ofAuthoriseRequest ⟨⟨50⟩⟩) emptyWorld).2.trace =
      [{ operationName := "POST /paymentAuth", context := .other "POST /paymentAuth" },
       { operationName := "authorize payment", context := .other "authorize payment" }] ∧
    (spansStarted
        ((MakeEndpoints accepting.toService plainTracer stderrLogger).AuthoriseEndpoint background
          (.ofAuthoriseRequest ⟨⟨50⟩⟩) emptyWorld).2.trace).length ≠ 1 ∧
    spansFinished
        ((MakeEndpoints accepting.toService plainTracer stderrLogger).AuthoriseEndpoint background
          (.ofAuthoriseRequest ⟨⟨50⟩⟩) emptyWorld).2.trace =
      [{ operationName := "authorize payment", context := .other "authorize payment" },
       { operationName := "POST /paymentAuth", context := .other "POST /paymentAuth" }] ∧
    (spansFinished
        ((MakeEndpoints accepting.toService plainTracer stderrLogger).AuthoriseEndpoint background
          (.ofAuthoriseRequest ⟨⟨50⟩⟩) emptyWorld).2.trace).length ≠ 1 := by
  refine ⟨rfl, ?_, rfl, ?_⟩
  · decide
  · decide

/-- C3, amended: one invocation of the `AuthoriseEndpoint` of `MakeEndpoints` with an
`AuthoriseRequest` starts exactly two spans and finishes exactly two spans, whether the
business `Authorise` returns an error or not (or panics). In order: the tracing
decorator starts its span "POST /paymentAuth", the adapter starts its span
"authorize payment" on the global tracer as a child of the decorator's span, the
adapter's span is finished, and the decorator's span is finished. -/
theorem traced_endpoint_spans {σ : Type} (b : Business σ) (tracer : Tracer) (logger : Logger)
    (ctx : Context) (r : AuthoriseRequest) (w : World σ) :
    ∃ evs : List Event,
      ((MakeEndpoints b.toService tracer logger).AuthoriseEndpoint ctx
          (.ofAuthoriseRequest r) w).2.trace = w.trace ++ evs ∧
      spanLifecycle evs =
        [.spanStart tracer.name (serverSpan tracer ctx),
         .spanStart w.globalTracer.name
            { operationName := "authorize payment"
              context := w.globalTracer.newContext "authorize payment"
                (some (serverSpan tracer ctx).context) },
         .spanFinish
            { operationName := "authorize payment"
              context := w.globalTracer.newContext "authorize payment"
                (some (serverSpan tracer ctx).context) },
         .spanFinish (serverSpan tracer ctx)] ∧
      spansStarted evs =
        [serverSpan tracer ctx, adapterSpan (ContextWithSpan ctx (serverSpan tracer ctx)) w] ∧
      spansFinished evs =
        [adapterSpan (ContextWithSpan ctx (serverSpan tracer ctx)) w, serverSpan tracer ctx] ∧
      (spansStarted evs).length = 2 ∧ (spansFinished evs).length = 2 := by
  obtain ⟨tail, htrace, htail⟩ := traced_endpoint_run b tracer logger ctx r w
  refine ⟨_, htrace, ?_⟩
  rcases htail with htail | ⟨line, htail⟩
  · subst htail
    exact ⟨rfl, rfl, rfl, rfl, rfl⟩
  · subst htail
    exact ⟨rfl, rfl, rfl, rfl, rfl⟩

end Payment
